import Mathlib

/-!
Verification of the lane-detection pipeline in `LaneDetectionV1.0.py`.

The repository is a single Python file built around one class, `LaneDetection`,
whose `__call__` runs five stages in sequence: grayscale+blur preprocessing,
Canny edge extraction, trapezoidal region-of-interest masking, probabilistic
Hough segment detection, and slope-based lane fitting followed by alpha
compositing.  This file shallowly embeds that program:

* The OpenCV / numpy raster primitives (`cv2.cvtColor`, `cv2.GaussianBlur`,
  `cv2.Canny`, `cv2.fillConvexPoly`, `cv2.HoughLinesP`, `cv2.line`) are
  external collaborators; they are embedded as abstract function parameters
  collected in the structure `Prims`.  Everything the repository itself
  computes (control flow, attribute state, slope classification, the
  least-squares fit call, fixed evaluation abscissae, error propagation,
  the bitwise-AND masking, the blend formula) is embedded concretely.
* Python exceptions become `Except PyErr`; the attribute state of the
  `LaneDetection` object becomes an explicit `LDState` threaded through the
  call; the list of helper methods actually entered during a call is
  recorded as a `List Stage`.
* The slope `(y2-y1)/(x2-x1)` is computed in the source on numpy `int32`
  scalars, which numpy true-divides in `float64`: a zero denominator does
  not raise, it yields `+inf` / `-inf` / `nan` (with a runtime warning).
  This is embedded exactly by `NpFloat` and `npSlope`.  Finite quotients are
  represented as exact rationals: for pixel-range integer coordinates the
  `float64` quotient compares to the literal `0.2` exactly as the rational
  quotient compares to `1/5` (the quotient of two small integers and the
  double nearest to `1/5` are never separated by less than the division's
  rounding error unless the quotient is exactly `1/5`, in which case both
  comparisons are ties in the same direction).
-/

/-- A single-channel image (edge map, mask): rows of `uint8`-valued pixels. -/
abbrev GrayImage : Type := List (List Nat)

/-- One color pixel; channel values are kept as exact rationals so that the
compositor's blend arithmetic is embedded without floating-point rounding. -/
abbrev CPix : Type := ℚ × ℚ × ℚ

/-- A three-channel image: rows of color pixels. -/
abbrev ColorImage : Type := List (List CPix)

/-- An ordered polygon of pixel coordinates, as stored in `self.roi_points`. -/
abbrev Polygon : Type := List (Int × Int)

/-- Python exceptions that the embedded code paths can raise. -/
inductive PyErr : Type where
  /-- `cv2.cvtColor` raises when handed `None` (a failed `cv2.imread`). -/
  | cvtColorError : PyErr
  /-- Reading `self.roi_points` when the attribute was never assigned. -/
  | attributeError : PyErr
  /-- `for line in lines:` when `lines` is `None` (`TypeError`). -/
  | typeErrorNoneIterable : PyErr
  /-- `np.polyfit` on an empty coordinate vector (`TypeError`). -/
  | polyfitEmptyVector : PyErr
deriving DecidableEq, Repr

/-- One detected line segment `(x1, y1, x2, y2)`, as produced by
`cv2.HoughLinesP` (`int32` pixel coordinates). -/
structure Segment : Type where
  x1 : Int
  y1 : Int
  x2 : Int
  y2 : Int
deriving DecidableEq, Repr

/-- The values numpy `float64` true division of two integers can produce:
a finite quotient, or `+inf` / `-inf` / `nan` when the denominator is zero. -/
inductive NpFloat : Type where
  | fin (q : ℚ) : NpFloat
  | posInf : NpFloat
  | negInf : NpFloat
  | nanv : NpFloat
deriving DecidableEq, Repr

/-- The exact rational value of `(y2 - y1) / (x2 - x1)` (meaningful when
`x2 ≠ x1`). -/
def slopeQ (s : Segment) : ℚ :=
  ((s.y2 : ℚ) - (s.y1 : ℚ)) / ((s.x2 : ℚ) - (s.x1 : ℚ))

/-- `slope = ((y2-y1)/(x2-x1))` from line 155 of the source, with numpy
`float64` semantics: a zero denominator yields a signed infinity (or `nan`
for `0/0`) instead of raising. -/
def npSlope (s : Segment) : NpFloat :=
  if s.x2 = s.x1 then
    if s.y1 < s.y2 then NpFloat.posInf
    else if s.y2 < s.y1 then NpFloat.negInf
    else NpFloat.nanv
  else NpFloat.fin (slopeQ s)

/-- `v >= t` on numpy floats: `+inf` compares greater than every finite
threshold, `nan` compares false. -/
def npGe (v : NpFloat) (t : ℚ) : Bool :=
  match v with
  | NpFloat.fin q => decide (t ≤ q)
  | NpFloat.posInf => true
  | NpFloat.negInf => false
  | NpFloat.nanv => false

/-- `v <= t` on numpy floats: `-inf` compares less than every finite
threshold, `nan` compares false. -/
def npLe (v : NpFloat) (t : ℚ) : Bool :=
  match v with
  | NpFloat.fin q => decide (q ≤ t)
  | NpFloat.posInf => false
  | NpFloat.negInf => true
  | NpFloat.nanv => false

/-- The four endpoint-coordinate accumulators `right_x, right_y, left_x,
left_y` of `_lane_line_fitting`. -/
structure PointSets : Type where
  right_x : List Int
  right_y : List Int
  left_x : List Int
  left_y : List Int
deriving DecidableEq, Repr

/-- All four accumulators start as empty Python lists (lines 147-150). -/
def emptyPointSets : PointSets := ⟨[], [], [], []⟩

/-- The body of the classification loop (lines 153-164): compute the slope,
then `if slope >= 0.2` extend the right accumulators with both endpoints,
`elif slope <= -0.2` extend the left accumulators, else do nothing. -/
def classifyStep (ps : PointSets) (s : Segment) : PointSets :=
  let slope := npSlope s
  if npGe slope (1/5) then
    { ps with right_x := ps.right_x ++ [s.x1, s.x2], right_y := ps.right_y ++ [s.y1, s.y2] }
  else if npLe slope (-(1/5)) then
    { ps with left_x := ps.left_x ++ [s.x1, s.x2], left_y := ps.left_y ++ [s.y1, s.y2] }
  else ps

/-- The whole classification loop over the detected segments. -/
def classifySegments (lines : List Segment) : PointSets :=
  lines.foldl classifyStep emptyPointSets

/-- Modelled from the spec: `np.polyfit(x, y, 1)` is an external numpy
primitive (spec 4.5 step 3: ordinary least-squares regression of y against
x).  On an empty coordinate vector numpy raises (`TypeError: expected
non-empty vector for x`), embedded as the `polyfitEmptyVector` error.  On a
rank-deficient non-empty input numpy returns a library-defined value with a
warning rather than raising; that branch returns a placeholder here and no
theorem below depends on it.  The well-posed branch returns the exact
least-squares `(slope, intercept)`. -/
def np_polyfit1 (xs ys : List ℚ) : Except PyErr (ℚ × ℚ) :=
  match xs with
  | [] => Except.error PyErr.polyfitEmptyVector
  | _ :: _ =>
    let n : ℚ := (xs.length : ℚ)
    let sx := xs.sum
    let sy := ys.sum
    let sxx := (xs.map fun a => a * a).sum
    let sxy := (List.zipWith (fun a b => a * b) xs ys).sum
    let d := n * sxx - sx * sx
    if d = 0 then Except.ok (0, 0)
    else Except.ok ((n * sxy - sx * sy) / d, (sxx * sy - sx * sxy) / d)

/-- Evaluation of the fitted degree-1 polynomial `np.poly1d(fit)` at `x`. -/
def polyval (fit : ℚ × ℚ) (x : ℚ) : ℚ := fit.1 * x + fit.2

/-- Python `int()` on a rational value truncates toward zero. -/
def py_int (q : ℚ) : Int := Int.tdiv q.num (q.den : Int)

/-- Height of a single-channel image, `img.shape[0]`. -/
def heightG (g : GrayImage) : Nat := g.length

/-- Width of a single-channel image, `img.shape[1]`. -/
def widthG (g : GrayImage) : Nat := (g.getD 0 []).length

/-- Pixel access with numpy-style row/column indexing; out-of-range reads
default to 0 (only used in statements, never on the embedded code paths). -/
def pixel (g : GrayImage) (y x : Nat) : Nat := (g.getD y []).getD x 0

/-- Color-pixel access, defaulting to black out of range. -/
def cpixel (g : ColorImage) (y x : Nat) : CPix :=
  (g.getD y []).getD x ((0 : ℚ), (0 : ℚ), (0 : ℚ))

/-- `g` is a rectangular `h × w` buffer. -/
def rectSize (g : GrayImage) (h w : Nat) : Bool :=
  (g.length == h) && g.all fun r => r.length == w

/-- The two color images have identical dimensions, row by row. -/
def sameShape : ColorImage → ColorImage → Bool
  | [], [] => true
  | r :: a, q :: b => (r.length == q.length) && sameShape a b
  | _, _ => false

/-- The external `cv2.fillConvexPoly` rasterizer, abstracted: for a polygon
it decides which pixels `(x, y)` the fill covers. -/
abbrev FillFn : Type := Polygon → Nat → Nat → Bool

/-- The external `cv2.line` rasterizer, abstracted: draw a segment between
two endpoints with a given color and thickness onto an image. -/
abbrev DrawFn : Type := ColorImage → Int × Int → Int × Int → List Nat → Nat → ColorImage

/-- `np.zeros((h, w), dtype=np.uint8)`. -/
def zerosG (h w : Nat) : GrayImage := List.replicate h (List.replicate w 0)

/-- `np.zeros((h, w, 3), dtype=np.uint8)`. -/
def zeros3 (h w : Nat) : ColorImage :=
  List.replicate h (List.replicate w ((0 : ℚ), (0 : ℚ), (0 : ℚ)))

/-- The mask produced at lines 125-126: start from `zerosG` and let
`cv2.fillConvexPoly` set every covered pixel to the full value 255. -/
def fillMask (fill : FillFn) (pts : Polygon) (h w : Nat) : GrayImage :=
  (List.range h).map fun y => (List.range w).map fun x => if fill pts x y then 255 else 0

/-- `cv2.bitwise_and` of two single-channel images: elementwise bitwise AND. -/
def bitwiseAnd (a b : GrayImage) : GrayImage :=
  List.zipWith (List.zipWith fun p q => p &&& q) a b

/-- The attribute state of a `LaneDetection` object relevant to the claims:
`roi_point` is the constructor argument (line 78) and is never reassigned;
`roi_points` is the derived attribute assigned only at line 122, `none`
standing for "never assigned" (so that reading it raises `AttributeError`). -/
structure LDState : Type where
  roi_point : Option Polygon
  roi_points : Option Polygon
deriving DecidableEq, Repr

/-- The state of a freshly constructed `LaneDetection(roi_point=rp)`:
`__init__` stores `roi_point` and assigns no `roi_points` attribute. -/
def initLD (rp : Option Polygon) : LDState := ⟨rp, none⟩

/-- The default trapezoid vertices of lines 118-122, in source order
`[left_down, left_top, right_top, right_down]`. -/
def default_roi_points (h w : Int) : Polygon :=
  [(500, 330), (0, h), (570, 330), (w, h)]

/-- The external primitives the pipeline delegates to, as the spec's
out-of-scope collaborators (spec section 1): each is an arbitrary but fixed
function, so each is deterministic, as the spec's interface demands. -/
structure Prims : Type where
  cvtColor : ColorImage → GrayImage
  gaussianBlur : GrayImage → GrayImage
  canny : GrayImage → GrayImage
  fillConvexPoly : FillFn
  houghLinesP : GrayImage → Option (List Segment)
  drawLine : DrawFn

/-- `_image_preprocess` (lines 101-105): grayscale conversion then blur. -/
def image_preprocess (P : Prims) (img : ColorImage) : GrayImage :=
  P.gaussianBlur (P.cvtColor img)

/-- `_edge_canny` (lines 107-109). -/
def edge_canny (P : Prims) (img : GrayImage) : GrayImage :=
  P.canny img

/-- `_roi_trapezoid` (lines 111-130).  When `self.roi_point is None` the
default trapezoid for the edge map's `h, w` is computed and assigned to
`self.roi_points` (line 122) — a write to the object during the call.  The
mask is then built from `self.roi_points`; if that attribute was never
assigned (constructor called with a non-`None` `roi_point`), reading it at
line 126 raises `AttributeError`.  Returns the masked edge map together with
the possibly-updated object state. -/
def roi_trapezoid (fill : FillFn) (s : LDState) (img : GrayImage) :
    (Except PyErr GrayImage) × LDState :=
  let h := heightG img
  let w := widthG img
  let s' :=
    match s.roi_point with
    | none => { s with roi_points := some (default_roi_points (h : Int) (w : Int)) }
    | some _ => s
  match s'.roi_points with
  | none => (Except.error PyErr.attributeError, s')
  | some pts => (Except.ok (bitwiseAnd img (fillMask fill pts h w)), s')

/-- `_Hough_line_fitting` (lines 132-143): run the external detector, then
draw each returned segment onto a scratch image that is discarded, and
return the detector's result.  When the masked edge map contains no
detectable segment, `cv2.HoughLinesP` returns `None`, and the drawing loop
`for line in lines:` raises `TypeError` on it. -/
def Hough_line_fitting (P : Prims) (img : GrayImage) : Except PyErr (List Segment) :=
  match P.houghLinesP img with
  | none => Except.error PyErr.typeErrorNoneIterable
  | some lines =>
    let scratch := lines.foldl
      (fun im s => P.drawLine im (s.x1, s.y1) (s.x2, s.y2) [0, 0, 255] 3)
      (zeros3 (heightG img) (widthG img))
    let _ := scratch
    Except.ok lines

/-- `_lane_line_fitting` (lines 145-179): classify every segment by slope,
then unconditionally fit the right point set, draw the right lane line at
x = 550 and x = 850, fit the left point set, draw the left lane line at
x = 120 and x = 425, and return the overlay.  There is no emptiness guard
before either `np.polyfit` call. -/
def lane_line_fitting (draw : DrawFn) (img : ColorImage) (lines : List Segment) :
    Except PyErr ColorImage :=
  let line_img := zeros3 img.length ((img.getD 0 []).length)
  let ps := classifySegments lines
  match np_polyfit1 (ps.right_x.map fun a => (a : ℚ)) (ps.right_y.map fun a => (a : ℚ)) with
  | Except.error e => Except.error e
  | Except.ok right_fit =>
    let y1R : Int := py_int (polyval right_fit 550)
    let y2R : Int := py_int (polyval right_fit 850)
    let line_img2 := draw line_img (550, y1R) (850, y2R) [0, 255, 0] 8
    match np_polyfit1 (ps.left_x.map fun a => (a : ℚ)) (ps.left_y.map fun a => (a : ℚ)) with
    | Except.error e => Except.error e
    | Except.ok left_fit =>
      let y1L : Int := py_int (polyval left_fit 120)
      let y2L : Int := py_int (polyval left_fit 425)
      Except.ok (draw line_img2 (120, y1L) (425, y2L) [0, 255, 0] 8)

/-- One blended color pixel: `alpha*a + beta*b + gamma` per channel. -/
def blendPix (alpha : ℚ) (a : CPix) (beta : ℚ) (b : CPix) (gamma : ℚ) : CPix :=
  (alpha * a.1 + beta * b.1 + gamma,
   alpha * a.2.1 + beta * b.2.1 + gamma,
   alpha * a.2.2 + beta * b.2.2 + gamma)

/-- Modelled from the spec: `cv2.addWeighted` is an external primitive whose
contract (spec section 4.6) is the pixelwise blend
`output[p] = alpha*src1[p] + beta*src2[p] + gamma`. -/
def addWeighted (src1 : ColorImage) (alpha : ℚ) (src2 : ColorImage) (beta gamma : ℚ) :
    ColorImage :=
  List.zipWith (List.zipWith fun p q => blendPix alpha p beta q gamma) src1 src2

/-- `_weighted_img_lines` (lines 181-182): the wrapper fixes the defaults
`alpha = 1`, `beta = 1`, `gamma = 0`. -/
def weighted_img_lines (img line_img : ColorImage) : ColorImage :=
  addWeighted img 1 line_img 1 0

/-- The helper methods `__call__` invokes, in order; a call's trace records
which of them were entered before the call returned or raised. -/
inductive Stage : Type where
  | preprocess : Stage
  | edgeCanny : Stage
  | roiMask : Stage
  | houghFit : Stage
  | laneFit : Stage
  | compositeStage : Stage
deriving DecidableEq, Repr

/-- The tail of `__call__` after the ROI stage: segment detection, lane
fitting, compositing, with Python exception propagation. -/
def lane_rest (P : Prims) (img : ColorImage) (r : (Except PyErr GrayImage) × LDState) :
    (Except PyErr ColorImage) × LDState × List Stage :=
  match r with
  | (Except.error e, s') =>
    (Except.error e, s', [Stage.preprocess, Stage.edgeCanny, Stage.roiMask])
  | (Except.ok roi, s') =>
    match Hough_line_fitting P roi with
    | Except.error e =>
      (Except.error e, s',
        [Stage.preprocess, Stage.edgeCanny, Stage.roiMask, Stage.houghFit])
    | Except.ok lines =>
      match lane_line_fitting P.drawLine img lines with
      | Except.error e =>
        (Except.error e, s',
          [Stage.preprocess, Stage.edgeCanny, Stage.roiMask, Stage.houghFit, Stage.laneFit])
      | Except.ok line_img =>
        (Except.ok (weighted_img_lines img line_img), s',
          [Stage.preprocess, Stage.edgeCanny, Stage.roiMask, Stage.houghFit, Stage.laneFit,
            Stage.compositeStage])

/-- `__call__` (lines 85-99) on the explicit object state.  The argument is
`Option ColorImage` because `main` passes the raw result of `cv2.imread`,
which is `None` when the file is missing or not decodable; `cv2.cvtColor`
raises on it inside the first stage.  Returns the result (or exception),
the post-call object state, and the trace of stages entered. -/
def lane_call (P : Prims) (s : LDState) (img? : Option ColorImage) :
    (Except PyErr ColorImage) × LDState × List Stage :=
  match img? with
  | none => (Except.error PyErr.cvtColorError, s, [Stage.preprocess])
  | some img =>
    lane_rest P img (roi_trapezoid P.fillConvexPoly s (edge_canny P (image_preprocess P img)))

/-- `main` (lines 192-201): construct `LaneDetection()` with defaults
(`roi_point=None`, hence no `roi_points` attribute), read the input image,
and call the pipeline on whatever `cv2.imread` returned — there is no check
between the read and the call. -/
def main_run (P : Prims) (imread_result : Option ColorImage) :
    (Except PyErr ColorImage) × LDState × List Stage :=
  lane_call P (initLD none) imread_result

/-- A drawing primitive that leaves the image unchanged; used to instantiate
theorems whose truth cannot depend on how the rasterizer paints pixels. -/
def drawId : DrawFn := fun im _ _ _ _ => im

/-- A concrete instantiation of the external primitives, for closed
evaluations: trivial raster transforms and a detector that finds nothing. -/
def trivPrims : Prims :=
  ⟨fun _ => [], fun g => g, fun g => g, fun _ _ _ => false, fun _ => none, drawId⟩

/-! ## Helper lemmas -/

theorem getD_zipWith_of_lt {α β γ : Type} (f : α → β → γ) (a : List α) (b : List β)
    (i : Nat) (da : α) (db : β) (dc : γ) (ha : i < a.length) (hb : i < b.length) :
    (List.zipWith f a b).getD i dc = f (a.getD i da) (b.getD i db) := by
  induction a generalizing b i with
  | nil => simp at ha
  | cons p ps ih =>
    cases b with
    | nil => simp at hb
    | cons q qs =>
      cases i with
      | zero => rfl
      | succ j =>
        simp only [List.zipWith_cons_cons, List.getD_cons_succ]
        exact ih qs j (Nat.lt_of_succ_lt_succ ha) (Nat.lt_of_succ_lt_succ hb)

theorem getD_zipWith_land (r q : List Nat) (x : Nat) :
    (List.zipWith (fun p q' => p &&& q') r q).getD x 0 = (r.getD x 0) &&& (q.getD x 0) := by
  induction r generalizing q x with
  | nil => simp
  | cons a as ih =>
    cases q with
    | nil => simp
    | cons b bs =>
      cases x with
      | zero => rfl
      | succ j => simpa using ih bs j

theorem pixel_bitwiseAnd (a b : GrayImage) (y x : Nat) :
    pixel (bitwiseAnd a b) y x = (pixel a y x) &&& (pixel b y x) := by
  induction a generalizing b y with
  | nil => simp [bitwiseAnd, pixel]
  | cons r rs ih =>
    cases b with
    | nil => simp [bitwiseAnd, pixel]
    | cons q qs =>
      cases y with
      | zero => simpa [bitwiseAnd, pixel] using getD_zipWith_land r q x
      | succ j => simpa [bitwiseAnd, pixel] using ih qs j

theorem getD_range_map {α : Type} (f : Nat → α) (h i : Nat) (d : α) :
    ((List.range h).map f).getD i d = if i < h then f i else d := by
  rcases Nat.lt_or_ge i h with hi | hi
  · rw [List.getD_eq_getElem?_getD, List.getElem?_map, List.getElem?_range hi]
    simp [hi]
  · rw [List.getD_eq_getElem?_getD, List.getElem?_eq_none (by simpa using hi)]
    simp [Nat.not_lt.mpr hi]

theorem pixel_fillMask (fill : FillFn) (pts : Polygon) (h w y x : Nat) :
    pixel (fillMask fill pts h w) y x =
      if y < h ∧ x < w ∧ fill pts x y = true then 255 else 0 := by
  unfold pixel fillMask
  rw [getD_range_map]
  by_cases hy : y < h
  · rw [if_pos hy, getD_range_map]
    by_cases hx : x < w
    · rw [if_pos hx]
      by_cases hf : fill pts x y = true
      · simp [hy, hx, hf]
      · simp [hy, hx, hf]
    · rw [if_neg hx]
      simp [hx]
  · rw [if_neg hy]
    simp [hy]

theorem rectSize_fillMask (fill : FillFn) (pts : Polygon) (h w : Nat) :
    rectSize (fillMask fill pts h w) h w = true := by
  simp [rectSize, fillMask, List.all_eq_true]

/-! ## Claim theorems -/

/-- Claim C4: for every segment with defined slope, the classification loop
adds both endpoints to the right point set when `slope >= 0.2`, both
endpoints to the left point set when `slope <= -0.2`, and contributes to
neither point set when `|slope| < 0.2`. -/
theorem slope_classification (ps : PointSets) (s : Segment) (hne : s.x2 ≠ s.x1) :
    ((1/5 : ℚ) ≤ slopeQ s →
      classifyStep ps s =
        { ps with right_x := ps.right_x ++ [s.x1, s.x2],
                  right_y := ps.right_y ++ [s.y1, s.y2] }) ∧
    (slopeQ s ≤ -(1/5) →
      classifyStep ps s =
        { ps with left_x := ps.left_x ++ [s.x1, s.x2],
                  left_y := ps.left_y ++ [s.y1, s.y2] }) ∧
    (-(1/5) < slopeQ s → slopeQ s < (1/5 : ℚ) → classifyStep ps s = ps) := by
  have hfin : npSlope s = NpFloat.fin (slopeQ s) := by
    simp [npSlope, hne]
  refine ⟨?_, ?_, ?_⟩
  · intro h
    have hge : npGe (npSlope s) (1/5) = true := by
      rw [hfin]; exact decide_eq_true h
    simp only [classifyStep, hge]
    simp
  · intro h
    have hge : npGe (npSlope s) (1/5) = false := by
      rw [hfin]; exact decide_eq_false (by intro hc; linarith)
    have hle : npLe (npSlope s) (-(1/5)) = true := by
      rw [hfin]; exact decide_eq_true h
    simp only [classifyStep, hge, hle]
    simp
  · intro h1 h2
    have hge : npGe (npSlope s) (1/5) = false := by
      rw [hfin]; exact decide_eq_false (by intro hc; linarith)
    have hle : npLe (npSlope s) (-(1/5)) = false := by
      rw [hfin]; exact decide_eq_false (by intro hc; linarith)
    simp only [classifyStep, hge, hle]
    simp

/-- Witness for C4 at the boundary slope `1/5`: the segment `(0,0)-(5,1)`
has slope exactly `0.2` and both its endpoints join the right point set. -/
theorem slope_classification_witness :
    ((⟨0, 0, 5, 1⟩ : Segment).x2 ≠ (⟨0, 0, 5, 1⟩ : Segment).x1 ∧
      (1/5 : ℚ) ≤ slopeQ ⟨0, 0, 5, 1⟩) ∧
    classifyStep emptyPointSets ⟨0, 0, 5, 1⟩ =
      { emptyPointSets with right_x := [0, 5], right_y := [0, 1] } := by
  have hne : (⟨0, 0, 5, 1⟩ : Segment).x2 ≠ (⟨0, 0, 5, 1⟩ : Segment).x1 := by decide
  have hs : (1/5 : ℚ) ≤ slopeQ ⟨0, 0, 5, 1⟩ := by norm_num [slopeQ]
  exact ⟨⟨hne, hs⟩, (slope_classification emptyPointSets ⟨0, 0, 5, 1⟩ hne).1 hs⟩

/-- Claim C2 is violated by the code: for the vertical segment
`(100, 50)-(100, 200)` the division is evaluated under numpy semantics,
produces `+inf`, and `+inf >= 0.2` holds, so both endpoints are added to the
right point set instead of the segment being excluded from both sides. -/
theorem vertical_segment_classified_into_right_pointset :
    npSlope ⟨100, 50, 100, 200⟩ = NpFloat.posInf ∧
    classifyStep emptyPointSets ⟨100, 50, 100, 200⟩ =
      { emptyPointSets with right_x := [100, 100], right_y := [50, 200] } :=
  ⟨rfl, rfl⟩

/-- Claim C1 is violated by the code: on a segment list whose every segment
is classified to the left side, the right point set is empty, and
`_lane_line_fitting` still invokes `np.polyfit` on it, which raises; the
pipeline aborts instead of skipping the empty side and drawing the other. -/
theorem lane_fitting_errors_when_right_pointset_empty :
    lane_line_fitting drawId (zeros3 2 2) [⟨550, 400, 850, 250⟩] =
      Except.error PyErr.polyfitEmptyVector := by
  have hfin : npSlope ⟨550, 400, 850, 250⟩ = NpFloat.fin (-(1/2)) := by
    have : slopeQ ⟨550, 400, 850, 250⟩ = -(1/2) := by
      norm_num [slopeQ]
    simp [npSlope, this]
  have hge : npGe (npSlope ⟨550, 400, 850, 250⟩) (1/5) = false := by
    rw [hfin]
    exact decide_eq_false (by norm_num)
  have hle : npLe (npSlope ⟨550, 400, 850, 250⟩) (-(1/5)) = true := by
    rw [hfin]
    exact decide_eq_true (by norm_num)
  have hstep : classifySegments [⟨550, 400, 850, 250⟩] =
      (⟨[], [], [550, 850], [400, 250]⟩ : PointSets) := by
    simp only [classifySegments, List.foldl, classifyStep, hge, hle]
    simp [emptyPointSets]
  unfold lane_line_fitting
  rw [hstep]
  rfl

/-- Claim C3 is violated by the code: with zero edge pixels the external
detector returns `None` and `_Hough_line_fitting` raises a `TypeError`
iterating over it; and even under the spec's interface (an empty segment
collection), `_lane_line_fitting` raises from `np.polyfit` on the empty
right point set — in neither case is the source image returned unmodified. -/
theorem zero_edge_pixels_pipeline_errors :
    Hough_line_fitting trivPrims [] = Except.error PyErr.typeErrorNoneIterable ∧
    lane_line_fitting drawId [] [] = Except.error PyErr.polyfitEmptyVector :=
  ⟨rfl, rfl⟩

/-- Claim C9 is violated by the code: `main` performs no check on the result
of `cv2.imread`, so on a missing or undecodable file the pipeline is invoked
on `None`, its first stage is entered, and the error surfaced is the raise
from `cv2.cvtColor` inside preprocessing, not a decode error caught before
the pipeline. -/
theorem main_enters_pipeline_on_decode_failure :
    main_run trivPrims none =
      (Except.error PyErr.cvtColorError, initLD none, [Stage.preprocess]) ∧
    (main_run trivPrims none).2.2 ≠ ([] : List Stage) :=
  ⟨rfl, by decide⟩

/-- Claim C7 is violated by the code: a pipeline call on a default-configured
object assigns the derived attribute `self.roi_points` inside
`_roi_trapezoid` (line 122), so the object's state after the call differs
from its state before the call. -/
theorem pipeline_call_mutates_roi_points :
    lane_call trivPrims (initLD none) (some [[((0 : ℚ), (0 : ℚ), (0 : ℚ))]]) =
      (Except.error PyErr.typeErrorNoneIterable,
        ⟨none, some (default_roi_points 0 0)⟩,
        [Stage.preprocess, Stage.edgeCanny, Stage.roiMask, Stage.houghFit]) ∧
    (⟨none, some (default_roi_points 0 0)⟩ : LDState) ≠ initLD none :=
  ⟨rfl, by decide⟩

/-- Claim C10: constructing `LaneDetection` with a non-`None` `roi_point`
leaves `self.roi_points` forever unassigned, so every pipeline call raises
`AttributeError` in the region-masking stage, the caller-supplied polygon is
never used (the result does not depend on `p`), and the object state is
unchanged, so later calls fail identically. -/
theorem nondefault_roi_point_attribute_error (P : Prims) (img : ColorImage) (p : Polygon) :
    lane_call P (initLD (some p)) (some img) =
      (Except.error PyErr.attributeError, initLD (some p),
        [Stage.preprocess, Stage.edgeCanny, Stage.roiMask]) :=
  rfl

/-- The default trapezoid for an edge map's dimensions, as recomputed at
lines 117-122 when no explicit polygon was configured. -/
def defaultPts (img : GrayImage) : Polygon :=
  default_roi_points (heightG img : Int) (widthG img : Int)

/-- The mask `_roi_trapezoid` builds for the default trapezoid. -/
def defaultMask (fill : FillFn) (img : GrayImage) : GrayImage :=
  fillMask fill (defaultPts img) (heightG img) (widthG img)

/-- Claim C5: on a default-configured object, `_roi_trapezoid` builds a mask
of the edge map's dimensions that is 255 on every pixel the fill covers and
0 elsewhere, combines it with the edge map by bitwise AND, and in the result
every pixel outside the filled polygon is exactly zero — for any edge map
and any fill behavior of the external rasterizer. -/
theorem roi_mask_outside_zero (fill : FillFn) (s : LDState) (img : GrayImage)
    (y x u v : Nat)
    (h0 : s.roi_point = none)
    (hout : fill (defaultPts img) x y = false)
    (hv : v < heightG img) (hu : u < widthG img)
    (hin : fill (defaultPts img) u v = true) :
    roi_trapezoid fill s img =
      (Except.ok (bitwiseAnd img (defaultMask fill img)),
        { s with roi_points := some (defaultPts img) }) ∧
    pixel (defaultMask fill img) y x = 0 ∧
    pixel (bitwiseAnd img (defaultMask fill img)) y x = 0 ∧
    pixel (defaultMask fill img) v u = 255 ∧
    rectSize (defaultMask fill img) (heightG img) (widthG img) = true := by
  obtain ⟨rp, rps⟩ := s
  simp only [LDState.roi_point] at h0
  subst h0
  have hmz : pixel (defaultMask fill img) y x = 0 := by
    rw [defaultMask, pixel_fillMask]
    simp [hout]
  refine ⟨rfl, hmz, ?_, ?_, rectSize_fillMask fill (defaultPts img) _ _⟩
  · rw [pixel_bitwiseAnd, hmz, Nat.and_zero]
  · rw [defaultMask, pixel_fillMask]
    simp [hv, hu, hin]

/-- Concrete witness fill predicate: covers only the pixel `(0, 0)`. -/
def wFill : FillFn := fun _ a b => (a == 0) && (b == 0)

/-- Concrete witness edge map, a 2-by-2 image with nonzero pixels. -/
def wImg : GrayImage := [[7, 9], [3, 5]]

/-- Witness for C5 on `wImg` and `wFill`: pixel `(1, 1)` is outside the
fill, pixel `(0, 0)` inside. -/
theorem roi_mask_outside_zero_witness :
    ((initLD none).roi_point = none ∧
      wFill (defaultPts wImg) 1 1 = false ∧
      0 < heightG wImg ∧ 0 < widthG wImg ∧
      wFill (defaultPts wImg) 0 0 = true) ∧
    (roi_trapezoid wFill (initLD none) wImg =
      (Except.ok (bitwiseAnd wImg (defaultMask wFill wImg)),
        { initLD none with roi_points := some (defaultPts wImg) }) ∧
    pixel (defaultMask wFill wImg) 1 1 = 0 ∧
    pixel (bitwiseAnd wImg (defaultMask wFill wImg)) 1 1 = 0 ∧
    pixel (defaultMask wFill wImg) 0 0 = 255 ∧
    rectSize (defaultMask wFill wImg) (heightG wImg) (widthG wImg) = true) := by
  refine ⟨⟨rfl, rfl, by decide, by decide, rfl⟩, ?_⟩
  exact roi_mask_outside_zero wFill (initLD none) wImg 1 1 0 0 rfl rfl
    (by decide) (by decide) rfl

/-- Blending a pixel with `alpha = 1`, `beta = 0`, `gamma = 0` returns the
first pixel unchanged. -/
theorem blendPix_id (p q : CPix) : blendPix 1 p 0 q 0 = p := by
  obtain ⟨a, b, c⟩ := p
  simp [blendPix]

/-- Row-level identity blend. -/
theorem zipWith_blend_id (r q : List CPix) (h : r.length = q.length) :
    List.zipWith (fun p p' => blendPix 1 p 0 p' 0) r q = r := by
  induction r generalizing q with
  | nil => simp
  | cons p ps ih =>
    cases q with
    | nil => simp at h
    | cons p' qs =>
      rw [List.zipWith_cons_cons, blendPix_id, ih qs (by simpa using h)]

/-- Image-level identity blend for images of identical dimensions. -/
theorem addWeighted_id (img ov : ColorImage) (h : sameShape img ov = true) :
    addWeighted img 1 ov 0 0 = img := by
  induction img generalizing ov with
  | nil =>
    cases ov with
    | nil => rfl
    | cons q b => simp [sameShape] at h
  | cons r a ih =>
    cases ov with
    | nil => simp [sameShape] at h
    | cons q b =>
      simp only [sameShape, Bool.and_eq_true, beq_iff_eq] at h
      simp only [addWeighted, List.zipWith_cons_cons]
      rw [zipWith_blend_id r q h.1]
      have := ih b h.2
      simp only [addWeighted] at this
      rw [this]

/-- Claim C6: the compositor computes `output[p] = alpha*original[p] +
beta*overlay[p] + gamma` per pixel; the repository wrapper fixes the
defaults `alpha = 1`, `beta = 1`, `gamma = 0`; and with `alpha = 1`,
`beta = 0`, `gamma = 0` the output equals the original image exactly. -/
theorem compositor_blend_formula (img ov : ColorImage) (alpha beta gamma : ℚ) (y x : Nat)
    (hy1 : y < img.length) (hy2 : y < ov.length)
    (hx1 : x < (img.getD y []).length) (hx2 : x < (ov.getD y []).length)
    (hs : sameShape img ov = true) :
    weighted_img_lines img ov = addWeighted img 1 ov 1 0 ∧
    cpixel (addWeighted img alpha ov beta gamma) y x =
      blendPix alpha (cpixel img y x) beta (cpixel ov y x) gamma ∧
    addWeighted img 1 ov 0 0 = img := by
  refine ⟨rfl, ?_, addWeighted_id img ov hs⟩
  unfold cpixel addWeighted
  rw [getD_zipWith_of_lt _ img ov y [] [] [] hy1 hy2]
  rw [getD_zipWith_of_lt (fun p q => blendPix alpha p beta q gamma)
    (img.getD y []) (ov.getD y []) x ((0 : ℚ), (0 : ℚ), (0 : ℚ))
    ((0 : ℚ), (0 : ℚ), (0 : ℚ)) ((0 : ℚ), (0 : ℚ), (0 : ℚ)) hx1 hx2]

/-- Concrete witness images for the compositor, 1 by 1 each. -/
def wCImg1 : ColorImage := [[((1 : ℚ), (2 : ℚ), (3 : ℚ))]]

/-- Second concrete witness image for the compositor. -/
def wCImg2 : ColorImage := [[((4 : ℚ), (5 : ℚ), (6 : ℚ))]]

/-- Witness for C6 at `alpha = 2`, `beta = 3`, `gamma = 7` and pixel
`(0, 0)` of two concrete 1-by-1 images. -/
theorem compositor_blend_formula_witness :
    (0 < wCImg1.length ∧ 0 < wCImg2.length ∧
      0 < (wCImg1.getD 0 []).length ∧ 0 < (wCImg2.getD 0 []).length ∧
      sameShape wCImg1 wCImg2 = true) ∧
    (weighted_img_lines wCImg1 wCImg2 = addWeighted wCImg1 1 wCImg2 1 0 ∧
    cpixel (addWeighted wCImg1 2 wCImg2 3 7) 0 0 =
      blendPix 2 (cpixel wCImg1 0 0) 3 (cpixel wCImg2 0 0) 7 ∧
    addWeighted wCImg1 1 wCImg2 0 0 = wCImg1) := by
  refine ⟨⟨by decide, by decide, by decide, by decide, rfl⟩, ?_⟩
  exact compositor_blend_formula wCImg1 wCImg2 2 3 7 0 0
    (by decide) (by decide) (by decide) (by decide) rfl

/-- Rerunning `_roi_trapezoid` from the state a first run leaves behind
produces the identical result and state: the only write (line 122) is
recomputed to the same value when `roi_point` is `None`, and no write
happens otherwise. -/
theorem roi_trapezoid_state_idem (fill : FillFn) (s : LDState) (img : GrayImage) :
    roi_trapezoid fill ((roi_trapezoid fill s img).2) img = roi_trapezoid fill s img := by
  obtain ⟨rp, rps⟩ := s
  cases rp with
  | none => rfl
  | some p =>
    cases rps with
    | none => rfl
    | some pts => rfl

/-- The stages after ROI masking pass the object state through unchanged. -/
theorem lane_rest_state (P : Prims) (img : ColorImage)
    (r : (Except PyErr GrayImage) × LDState) :
    (lane_rest P img r).2.1 = r.2 := by
  obtain ⟨e, s'⟩ := r
  cases e with
  | error e => rfl
  | ok roi =>
    cases h1 : Hough_line_fitting P roi with
    | error e => simp [lane_rest, h1]
    | ok lines =>
      cases h2 : lane_line_fitting P.drawLine img lines with
      | error e => simp [lane_rest, h1, h2]
      | ok line_img => simp [lane_rest, h1, h2]

/-- Claim C8: the pipeline is deterministic across invocations — a second
call on the identical input, starting from the state the first call left
behind, returns exactly the first call's result (output, state and trace),
for every configuration state, input and behavior of the deterministic
external primitives. -/
theorem pipeline_idempotent_across_calls (P : Prims) (s : LDState) (img? : Option ColorImage) :
    lane_call P ((lane_call P s img?).2.1) img? = lane_call P s img? := by
  cases img? with
  | none => rfl
  | some img =>
    simp only [lane_call]
    rw [lane_rest_state, roi_trapezoid_state_idem]
